import Mathlib

/-!
Shallow embedding of `sky/check.py` (credential checks: check cloud credentials
and enable clouds) and verification of its reconciliation engine.

The embedding follows the source closely:
* `check_one_cloud_one_capability` is the probe adapter (check.py lines 43-58);
* `get_cloud_tuple` / `get_all_clouds` model name resolution (lines 60-73);
* `run_in_parallel` models `subprocess_utils.run_in_parallel` (outside the
  slice) as an order-preserving map, per the dispatcher contract;
* `aggregate` models the zip/defaultdict grouping loop (lines 102-121);
* `enabled_clouds_for_capability` and `reconcile_loop` model the per-capability
  set algebra and cache writes (lines 133-160);
* `check_capabilities` ties the phases together (lines 27-203), with
  presentation (echo / click / colorama output) omitted;
* `get_cached_enabled_clouds_or_refresh` models lines 230-262.

External collaborators (the cloud registry, the user-state cache store, the
config loader and each provider's `check_credentials`) are passed in as an
explicit environment `Env`, following the spec's injected-dependency reading.
-/

set_option maxHeartbeats 1000000
set_option autoImplicit false

/-- The capability enumeration (`sky.clouds.cloud.CloudCapability`). -/
inductive CloudCapability where
  | compute
  | storage
  deriving DecidableEq

/-- All known capabilities (`sky_cloud.ALL_CAPABILITIES`). -/
def ALL_CAPABILITIES : List CloudCapability :=
  [CloudCapability.compute, CloudCapability.storage]

/-- A probe reason: either a plain diagnostic string or a mapping from
sub-context name to status string (`Union[str, Dict[str, str]]`). -/
inductive Reason where
  | str : String → Reason
  | dict : List (String × String) → Reason
  deriving DecidableEq

/-- Behaviour of one `cloud.check_credentials(capability)` call: a normal
return `(ok, reason)`, an `exceptions.NotSupportedError`, or any other
exception (carrying the text `traceback.format_exc()` would produce). -/
inductive ProbeResult where
  | ret : Bool → Option Reason → ProbeResult
  | notSupportedError : ProbeResult
  | raised : String → ProbeResult
  deriving DecidableEq

/-- The tuple returned by the probe adapter: `(capability, ok, reason)`. -/
abbrev CheckResult := CloudCapability × Bool × Option Reason

/-- Python's `str.strip()`: drop leading and trailing whitespace.  Modelled on
the character list so that it is kernel-computable. -/
def py_strip (s : String) : String :=
  String.mk
    ((((s.data.dropWhile Char.isWhitespace).reverse).dropWhile
      Char.isWhitespace).reverse)

/-- Python's `str.lower()`, modelled on the character list. -/
def py_lower (s : String) : String :=
  String.mk (s.data.map Char.toLower)

/-- Python's `str.startswith(pre)`, modelled on the character list. -/
def py_startswith (s pre : String) : Bool :=
  pre.data.isPrefixOf s.data

/-- Code-point comparison of two character lists, as Python compares
strings. -/
def chars_lt : List Char → List Char → Bool
  | [], [] => false
  | [], _ :: _ => true
  | _ :: _, [] => false
  | a :: as, b :: bs =>
    if a < b then true else if b < a then false else chars_lt as bs

/-- Python's `a <= b` on strings (lexicographic by code point). -/
def py_str_le (a b : String) : Bool :=
  !(chars_lt b.data a.data)

/-- Reason normalization, check.py lines 56-57:
`if not isinstance(reason, dict): reason = reason.strip() if reason else None`.
A dict passes through unmodified; a falsy reason (`None` or the empty string)
becomes `None`; a non-empty string is stripped of surrounding whitespace. -/
def normalize_reason : Option Reason → Option Reason
  | some (Reason.dict d) => some (Reason.dict d)
  | some (Reason.str s) => if s = "" then none else some (Reason.str (py_strip s))
  | none => none

/-- The probe adapter, check.py lines 43-58.  `probe` is the behaviour of
`cloud.check_credentials` for the cloud being probed. -/
def check_one_cloud_one_capability (probe : CloudCapability → ProbeResult)
    (capability : CloudCapability) : Option CheckResult :=
  match probe capability with
  | ProbeResult.notSupportedError => none
  | ProbeResult.raised tb =>
    some (capability, false, normalize_reason (some (Reason.str tb)))
  | ProbeResult.ret ok reason => some (capability, ok, normalize_reason reason)

/-- Modelled from the spec: the display name of the Cloudflare pseudo-provider
(`sky.adaptors.cloudflare.NAME`, which lives outside this slice).  The engine
only relies on the name starting with the literal prefix `"Cloudflare"`
(check.py lines 64, 140, 144, 148). -/
def cloudflare_NAME : String := "Cloudflare"

/-- The external collaborators of one run, injected explicitly:
`from_str` is `registry.CLOUD_REGISTRY.from_str` composed with `repr` (it
returns the canonical display name of a registered cloud, or `none` when the
name does not resolve); `registry_values` is `repr` of each cloud in
`registry.CLOUD_REGISTRY.values()`; `probe cl` is the behaviour of
`check_credentials` of the cloud whose display name is `cl`;
`allowed_clouds_config` is `skypilot_config.get_nested(('allowed_clouds',), _)`
with `none` meaning the key is absent (so the default is used). -/
structure Env where
  from_str : String → Option String
  registry_values : List String
  probe : String → CloudCapability → ProbeResult
  allowed_clouds_config : Option (List String)

/-- Name resolution, check.py lines 60-69.  `none` models the failing
assertion `assert cloud_obj is not None` (an unresolvable provider name). -/
def get_cloud_tuple (env : Env) (cloud_name : String) : Option String :=
  if py_startswith (py_lower cloud_name) "cloudflare" then some cloudflare_NAME
  else env.from_str cloud_name

/-- All known clouds, check.py lines 71-73: every registered cloud plus the
Cloudflare pseudo-provider. -/
def get_all_clouds (env : Env) : List String :=
  env.registry_values ++ [cloudflare_NAME]

/-- Resolution of a whole list of requested names, as done by the list
comprehensions at check.py lines 79 and 83-86; the first unresolvable name
aborts the run (`Except.error` carries that name). -/
def resolveAll (env : Env) : List String → Except String (List String)
  | [] => Except.ok []
  | c :: rest =>
    match get_cloud_tuple env c with
    | none => Except.error c
    | some r =>
      match resolveAll env rest with
      | Except.error e => Except.error e
      | Except.ok rs => Except.ok (r :: rs)

/-- Modelled from the spec: `subprocess_utils.run_in_parallel` (outside this
slice) executes the task on every input and returns one result per input, in
an order corresponding to the input list (spec 4.3: results are recoverable by
zipping with the inputs). -/
def run_in_parallel {α β : Type} (f : α → β) (xs : List α) : List β :=
  xs.map f

/-- The dispatcher call, check.py lines 98-100: probe every eligible
(provider, capability) pair. -/
def dispatch (env : Env) (combos : List (String × CloudCapability)) :
    List (Option CheckResult) :=
  run_in_parallel
    (fun p => check_one_cloud_one_capability (env.probe p.1) p.2) combos

/-- Python dict building idiom `d.setdefault(k, []).append(v)` on an
insertion-ordered association list with unique keys. -/
def setdefault_append (d : List (String × List CloudCapability)) (k : String)
    (v : CloudCapability) : List (String × List CloudCapability) :=
  match d with
  | [] => [(k, [v])]
  | kv :: rest =>
    if k = kv.1 then (kv.1, kv.2 ++ [v]) :: rest
    else kv :: setdefault_append rest k v

/-- Aggregated outcomes: the `enabled_clouds` and `disabled_clouds` dicts of
check.py lines 40-41 (presentation-only structures such as `cloud2ctx2text`
and `check_results_dict` are omitted). -/
structure Agg where
  enabled_clouds : List (String × List CloudCapability)
  disabled_clouds : List (String × List CloudCapability)
  deriving DecidableEq

/-- One iteration of the aggregation loop, check.py lines 109-121: a `none`
result (unsupported pair) is skipped; otherwise the capability is appended to
the probed cloud's entry in the enabled or disabled dict according to `ok`. -/
def aggregate_step (agg : Agg)
    (pr : (String × CloudCapability) × Option CheckResult) : Agg :=
  match pr.2 with
  | none => agg
  | some (capability, ok, _) =>
    if ok then
      { agg with
        enabled_clouds := setdefault_append agg.enabled_clouds pr.1.1 capability }
    else
      { agg with
        disabled_clouds := setdefault_append agg.disabled_clouds pr.1.1 capability }

/-- The aggregation loop `for combination, check_result in zip(...)`,
check.py lines 109-121. -/
def aggregate (combos : List (String × CloudCapability))
    (results : List (Option CheckResult)) : Agg :=
  (combos.zip results).foldl aggregate_step ⟨[], []⟩

/-- The set comprehensions of check.py lines 138-145: clouds whose dict entry
contains this capability, excluding Cloudflare-prefixed pseudo-providers. -/
def dict_cap_set (d : List (String × List CloudCapability))
    (capability : CloudCapability) : Finset String :=
  ((d.filter (fun kv =>
    decide (capability ∈ kv.2) && !(py_startswith kv.1 "Cloudflare"))).map
      Prod.fst).toFinset

/-- The set comprehension of check.py lines 146-149: the resolved allow-list,
excluding Cloudflare-prefixed pseudo-providers. -/
def config_allowed_clouds_set (config_allowed_cloud_names : List String) :
    Finset String :=
  (config_allowed_cloud_names.filter
    (fun c => !(py_startswith c "Cloudflare"))).toFinset

/-- The reconciliation formula of check.py lines 154-156:
`config_allowed_clouds_set & ((previously_enabled | enabled) - disabled)`. -/
def enabled_clouds_for_capability (config_allowed_cloud_names : List String)
    (agg : Agg) (previously_enabled_clouds_set : Finset String)
    (capability : CloudCapability) : Finset String :=
  config_allowed_clouds_set config_allowed_cloud_names ∩
    ((previously_enabled_clouds_set ∪ dict_cap_set agg.enabled_clouds capability) \
      dict_cap_set agg.disabled_clouds capability)

/-- State threaded through the reconciliation loop: the cache store
(`global_user_state`, keyed by capability), the running union
`all_enabled_clouds`, and the observable log of `set_enabled_clouds` calls. -/
structure RecState where
  cache : CloudCapability → Finset String
  all_enabled_clouds : Finset String
  writes : List (CloudCapability × Finset String)

/-- One iteration of the reconciliation loop, check.py lines 134-160: read the
cached enabled clouds for this capability, apply the reconciliation formula,
persist the result (`set_enabled_clouds`, logged in `writes`), and extend the
running union. -/
def reconcile_step (config_allowed_cloud_names : List String) (agg : Agg)
    (st : RecState) (capability : CloudCapability) : RecState :=
  let new_enabled := enabled_clouds_for_capability config_allowed_cloud_names
    agg (st.cache capability) capability
  { cache := Function.update st.cache capability new_enabled,
    all_enabled_clouds := st.all_enabled_clouds ∪ new_enabled,
    writes := st.writes ++ [(capability, new_enabled)] }

/-- The reconciliation loop `for capability in capabilities`, check.py
lines 133-160. -/
def reconcile_loop (config_allowed_cloud_names : List String) (agg : Agg)
    (capabilities : List CloudCapability)
    (cache : CloudCapability → Finset String) : RecState :=
  capabilities.foldl (reconcile_step config_allowed_cloud_names agg)
    ⟨cache, ∅, []⟩

/-- How a run terminates: normally (returning the `enabled_clouds` dict,
check.py line 203), with `SystemExit` (line 176), or with the failing
assertion of `get_cloud_tuple` (line 68). -/
inductive RunOutcome where
  | ok : List (String × List CloudCapability) → RunOutcome
  | systemExit : RunOutcome
  | cloudNotFound : String → RunOutcome
  deriving DecidableEq

/-- Observable result of one `check_capabilities` run: the cache store after
the run, the log of cache writes, and how the run terminated. -/
structure RunResult where
  cache : CloudCapability → Finset String
  writes : List (CloudCapability × Finset String)
  outcome : RunOutcome

/-- The `sorted(...)` of check.py line 83 applied to the resolved config
names. -/
def resolved_allow_list (config0 : List String) : List String :=
  List.insertionSort (fun a b => py_str_le a b = true) config0

/-- The filter of check.py lines 93-95: keep only requested clouds present in
the resolved allow-list. -/
def eligible_clouds (ctc0 config0 : List String) : List String :=
  ctc0.filter (fun c => decide (c ∈ resolved_allow_list config0))

/-- `itertools.product(clouds_to_check, capabilities)`, check.py line 97. -/
def eligible_combinations (ctc0 config0 : List String)
    (capabilities : List CloudCapability) : List (String × CloudCapability) :=
  List.product (eligible_clouds ctc0 config0) capabilities

/-- The body of `check_capabilities` after both name-resolution phases
succeeded: dispatch, aggregate, reconcile, and raise `SystemExit` when the
union of all newly enabled clouds is empty (check.py lines 93-203). -/
def run_after_resolution (env : Env) (cache : CloudCapability → Finset String)
    (ctc0 config0 : List String) (capabilities : List CloudCapability) :
    RunResult :=
  let combinations := eligible_combinations ctc0 config0 capabilities
  let agg := aggregate combinations (dispatch env combinations)
  let rst := reconcile_loop (resolved_allow_list config0) agg capabilities cache
  if rst.all_enabled_clouds = ∅ then
    ⟨rst.cache, rst.writes, RunOutcome.systemExit⟩
  else
    ⟨rst.cache, rst.writes, RunOutcome.ok agg.enabled_clouds⟩

/-- `check_capabilities`, check.py lines 27-203.  `clouds = none` means the
default (all known clouds); `capabilities0 = none` means all capabilities.
The requested cloud list is resolved first (line 79), then the configured
allow-list (lines 83-86); an unresolvable name aborts the run with the cache
untouched. -/
def check_capabilities (env : Env) (cache : CloudCapability → Finset String)
    (clouds : Option (List String))
    (capabilities0 : Option (List CloudCapability)) : RunResult :=
  let capabilities := capabilities0.getD ALL_CAPABILITIES
  let cloud_list := clouds.getD (get_all_clouds env)
  match resolveAll env cloud_list with
  | Except.error name => ⟨cache, [], RunOutcome.cloudNotFound name⟩
  | Except.ok ctc0 =>
    match resolveAll env (env.allowed_clouds_config.getD (get_all_clouds env)) with
    | Except.error name => ⟨cache, [], RunOutcome.cloudNotFound name⟩
    | Except.ok config0 => run_after_resolution env cache ctc0 config0 capabilities

/-- `check_capability`, check.py lines 206-217 (its list return value is
presentation-level; the state effect is the single-capability run). -/
def check_capability (env : Env) (cache : CloudCapability → Finset String)
    (capability : CloudCapability) (clouds : Option (List String)) : RunResult :=
  check_capabilities env cache clouds (some [capability])

/-- How `get_cached_enabled_clouds_or_refresh` terminates: normally, with
`exceptions.NoCloudAccessError`, or with a propagated resolution assertion
failure from the inner check. -/
inductive RefreshOutcome where
  | ok : Finset String → RefreshOutcome
  | noCloudAccessError : RefreshOutcome
  | cloudNotFound : String → RefreshOutcome
  deriving DecidableEq

/-- `get_cached_enabled_clouds_or_refresh`, check.py lines 230-262: read the
cached enabled clouds; when empty, run `check_capability(COMPUTE, quiet=True)`
absorbing its `SystemExit` (but not an assertion failure), then re-read; raise
`NoCloudAccessError` when the flag is set and the cache is still empty. -/
def get_cached_enabled_clouds_or_refresh (env : Env)
    (cache : CloudCapability → Finset String) (capability : CloudCapability)
    (raise_if_no_cloud_access : Bool) :
    (CloudCapability → Finset String) × RefreshOutcome :=
  let cached_enabled_clouds := cache capability
  if cached_enabled_clouds = ∅ then
    let run := check_capability env cache CloudCapability.compute none
    match run.outcome with
    | RunOutcome.cloudNotFound name => (run.cache, RefreshOutcome.cloudNotFound name)
    | _ =>
      let cached2 := run.cache capability
      if raise_if_no_cloud_access && decide (cached2 = ∅) then
        (run.cache, RefreshOutcome.noCloudAccessError)
      else (run.cache, RefreshOutcome.ok cached2)
  else
    if raise_if_no_cloud_access && decide (cached_enabled_clouds = ∅) then
      (cache, RefreshOutcome.noCloudAccessError)
    else (cache, RefreshOutcome.ok cached_enabled_clouds)

/-- The `ok` flag of the adapter's outcome for one probe (false when the pair
produced no outcome). -/
def probe_ok (probe : CloudCapability → ProbeResult)
    (capability : CloudCapability) : Bool :=
  match check_one_cloud_one_capability probe capability with
  | some (_, ok, _) => ok
  | none => false

/-- A provider "passed this pass" for a capability: its probe produced an
outcome with `ok = true`. -/
def probe_passed (env : Env) (cloud : String)
    (capability : CloudCapability) : Bool :=
  probe_ok (env.probe cloud) capability

/-- Negated `ok` flag of the adapter's outcome for one probe (false when the
pair produced no outcome). -/
def probe_fail (probe : CloudCapability → ProbeResult)
    (capability : CloudCapability) : Bool :=
  match check_one_cloud_one_capability probe capability with
  | some (_, ok, _) => !ok
  | none => false

/-- A provider "failed this pass" for a capability: its probe produced an
outcome with `ok = false`. -/
def probe_failed (env : Env) (cloud : String)
    (capability : CloudCapability) : Bool :=
  probe_fail (env.probe cloud) capability

/-- Spec-side set (spec 4.5): `newly_enabled`, the providers among this run's
eligible pairs that passed this pass for the capability, excluding
pseudo-providers. -/
def spec_newly_enabled (env : Env) (combos : List (String × CloudCapability))
    (capability : CloudCapability) : Finset String :=
  ((combos.filter (fun p => decide (p.2 = capability) &&
    probe_passed env p.1 capability && !(py_startswith p.1 "Cloudflare"))).map
      Prod.fst).toFinset

/-- Spec-side set (spec 4.5): `newly_disabled`, the providers among this run's
eligible pairs that failed this pass for the capability, excluding
pseudo-providers. -/
def spec_newly_disabled (env : Env) (combos : List (String × CloudCapability))
    (capability : CloudCapability) : Finset String :=
  ((combos.filter (fun p => decide (p.2 = capability) &&
    probe_failed env p.1 capability && !(py_startswith p.1 "Cloudflare"))).map
      Prod.fst).toFinset

/-- Spec-side set (spec 4.5): `allowed`, the resolved allow-list excluding
pseudo-providers. -/
def spec_allowed (config0 : List String) : Finset String :=
  ((resolved_allow_list config0).filter
    (fun c => !(py_startswith c "Cloudflare"))).toFinset

/-- Spec-side set (spec 4.5): `previously_enabled`, the cached EnabledState
excluding pseudo-providers. -/
def spec_previously_enabled (prev : Finset String) : Finset String :=
  prev.filter (fun c => py_startswith c "Cloudflare" = false)

/-- Spec-side reconciliation formula (spec 4.5):
`new_enabled = allowed ∩ ((previously_enabled ∪ newly_enabled) − newly_disabled)`
with every operand already excluding pseudo-providers. -/
def spec_new_enabled (env : Env) (combos : List (String × CloudCapability))
    (config0 : List String) (prev : Finset String)
    (capability : CloudCapability) : Finset String :=
  spec_allowed config0 ∩
    ((spec_previously_enabled prev ∪ spec_newly_enabled env combos capability) \
      spec_newly_disabled env combos capability)

/-! Membership lemmas for the aggregation dicts. -/

lemma mem_setdefault_append (d : List (String × List CloudCapability))
    (k0 : String) (v0 : CloudCapability) (x : String) (c : CloudCapability) :
    (∃ kv ∈ setdefault_append d k0 v0, kv.1 = x ∧ c ∈ kv.2) ↔
      (∃ kv ∈ d, kv.1 = x ∧ c ∈ kv.2) ∨ (x = k0 ∧ c = v0) := by
  induction d with
  | nil =>
    simp only [setdefault_append, List.mem_singleton, List.not_mem_nil]
    aesop
  | cons kv rest ih =>
    by_cases h : k0 = kv.1
    · subst h
      simp only [setdefault_append, if_pos rfl, List.mem_cons, List.mem_append,
        List.mem_singleton]
      aesop
    · simp only [setdefault_append, if_neg h, List.mem_cons]
      aesop

lemma mem_step_enabled (agg0 : Agg)
    (pr : (String × CloudCapability) × Option CheckResult) (x : String)
    (c : CloudCapability) :
    (∃ kv ∈ (aggregate_step agg0 pr).enabled_clouds, kv.1 = x ∧ c ∈ kv.2) ↔
      (∃ kv ∈ agg0.enabled_clouds, kv.1 = x ∧ c ∈ kv.2) ∨
        (pr.1.1 = x ∧ ∃ r, pr.2 = some (c, true, r)) := by
  rcases pr with ⟨combo, res⟩
  cases res with
  | none => simp [aggregate_step]
  | some t =>
    rcases t with ⟨cap, ok, r⟩
    cases ok with
    | false => simp [aggregate_step]
    | true =>
      have hstep : (aggregate_step agg0 (combo, some (cap, true, r))).enabled_clouds
          = setdefault_append agg0.enabled_clouds combo.1 cap := rfl
      rw [hstep, mem_setdefault_append]
      constructor
      · rintro (h | ⟨hx, hc⟩)
        · exact Or.inl h
        · exact Or.inr ⟨hx.symm, r, by rw [hc]⟩
      · rintro (h | ⟨hx, r', hr⟩)
        · exact Or.inl h
        · simp only [Option.some.injEq, Prod.mk.injEq, true_and] at hr
          exact Or.inr ⟨hx.symm, hr.1.symm⟩

lemma mem_step_disabled (agg0 : Agg)
    (pr : (String × CloudCapability) × Option CheckResult) (x : String)
    (c : CloudCapability) :
    (∃ kv ∈ (aggregate_step agg0 pr).disabled_clouds, kv.1 = x ∧ c ∈ kv.2) ↔
      (∃ kv ∈ agg0.disabled_clouds, kv.1 = x ∧ c ∈ kv.2) ∨
        (pr.1.1 = x ∧ ∃ r, pr.2 = some (c, false, r)) := by
  rcases pr with ⟨combo, res⟩
  cases res with
  | none => simp [aggregate_step]
  | some t =>
    rcases t with ⟨cap, ok, r⟩
    cases ok with
    | true => simp [aggregate_step]
    | false =>
      have hstep : (aggregate_step agg0 (combo, some (cap, false, r))).disabled_clouds
          = setdefault_append agg0.disabled_clouds combo.1 cap := rfl
      rw [hstep, mem_setdefault_append]
      constructor
      · rintro (h | ⟨hx, hc⟩)
        · exact Or.inl h
        · exact Or.inr ⟨hx.symm, r, by rw [hc]⟩
      · rintro (h | ⟨hx, r', hr⟩)
        · exact Or.inl h
        · simp only [Option.some.injEq, Prod.mk.injEq, true_and] at hr
          exact Or.inr ⟨hx.symm, hr.1.symm⟩

lemma mem_fold_enabled
    (pairs : List ((String × CloudCapability) × Option CheckResult))
    (agg0 : Agg) (x : String) (c : CloudCapability) :
    (∃ kv ∈ (pairs.foldl aggregate_step agg0).enabled_clouds, kv.1 = x ∧ c ∈ kv.2) ↔
      (∃ kv ∈ agg0.enabled_clouds, kv.1 = x ∧ c ∈ kv.2) ∨
        ∃ pr ∈ pairs, pr.1.1 = x ∧ ∃ r, pr.2 = some (c, true, r) := by
  induction pairs generalizing agg0 with
  | nil => simp
  | cons pr rest ih =>
    rw [List.foldl_cons, ih, mem_step_enabled]
    simp only [List.mem_cons, exists_eq_or_imp]
    exact or_assoc

lemma mem_fold_disabled
    (pairs : List ((String × CloudCapability) × Option CheckResult))
    (agg0 : Agg) (x : String) (c : CloudCapability) :
    (∃ kv ∈ (pairs.foldl aggregate_step agg0).disabled_clouds, kv.1 = x ∧ c ∈ kv.2) ↔
      (∃ kv ∈ agg0.disabled_clouds, kv.1 = x ∧ c ∈ kv.2) ∨
        ∃ pr ∈ pairs, pr.1.1 = x ∧ ∃ r, pr.2 = some (c, false, r) := by
  induction pairs generalizing agg0 with
  | nil => simp
  | cons pr rest ih =>
    rw [List.foldl_cons, ih, mem_step_disabled]
    simp only [List.mem_cons, exists_eq_or_imp]
    exact or_assoc

lemma mem_dict_cap_set (d : List (String × List CloudCapability))
    (capability : CloudCapability) (x : String) :
    x ∈ dict_cap_set d capability ↔
      py_startswith x "Cloudflare" = false ∧
        ∃ kv ∈ d, kv.1 = x ∧ capability ∈ kv.2 := by
  simp only [dict_cap_set, List.mem_toFinset, List.mem_map, List.mem_filter,
    Bool.and_eq_true, decide_eq_true_eq, Bool.not_eq_true']
  constructor
  · rintro ⟨a, ⟨ha, hcap, hcf⟩, hax⟩
    subst hax
    exact ⟨hcf, a, ha, rfl, hcap⟩
  · rintro ⟨hcf, kv, hkv, hk1, hcap⟩
    exact ⟨kv, ⟨hkv, hcap, by rw [hk1]; exact hcf⟩, hk1⟩

lemma zip_self_map {α β : Type} (f : α → β) (l : List α) :
    l.zip (l.map f) = l.map (fun a => (a, f a)) := by
  induction l with
  | nil => rfl
  | cons a l ih => simp [ih]

lemma exists_some_true_iff (probe : CloudCapability → ProbeResult)
    (cap c : CloudCapability) :
    (∃ r, check_one_cloud_one_capability probe cap = some (c, true, r)) ↔
      (c = cap ∧ probe_ok probe cap = true) := by
  cases hp : probe cap with
  | ret ok reason =>
    cases ok with
    | false => simp [check_one_cloud_one_capability, probe_ok, hp]
    | true => simp [check_one_cloud_one_capability, probe_ok, hp, eq_comm]
  | notSupportedError => simp [check_one_cloud_one_capability, probe_ok, hp]
  | raised tb => simp [check_one_cloud_one_capability, probe_ok, hp]

lemma exists_some_false_iff (probe : CloudCapability → ProbeResult)
    (cap c : CloudCapability) :
    (∃ r, check_one_cloud_one_capability probe cap = some (c, false, r)) ↔
      (c = cap ∧ probe_fail probe cap = true) := by
  cases hp : probe cap with
  | ret ok reason =>
    cases ok with
    | false => simp [check_one_cloud_one_capability, probe_fail, hp, eq_comm]
    | true => simp [check_one_cloud_one_capability, probe_fail, hp]
  | notSupportedError => simp [check_one_cloud_one_capability, probe_fail, hp]
  | raised tb => simp [check_one_cloud_one_capability, probe_fail, hp, eq_comm]

/-! Characterisation of the aggregated per-capability sets of one run. -/

lemma mem_agg_enabled_iff (env : Env) (combos : List (String × CloudCapability))
    (c : CloudCapability) (x : String) :
    x ∈ dict_cap_set (aggregate combos (dispatch env combos)).enabled_clouds c ↔
      x ∈ spec_newly_enabled env combos c := by
  rw [mem_dict_cap_set]
  unfold aggregate dispatch run_in_parallel
  rw [zip_self_map, mem_fold_enabled]
  simp only [List.not_mem_nil, false_and, exists_false, exists_const, false_or,
    List.mem_map, exists_exists_and_eq_and, exists_some_true_iff,
    spec_newly_enabled, List.mem_toFinset, List.mem_filter, Bool.and_eq_true,
    decide_eq_true_eq, Bool.not_eq_true', probe_passed]
  constructor
  · rintro ⟨hcf, p, hp, hpx, hcp, hok⟩
    refine ⟨p, ⟨hp, ⟨hcp.symm, ?_⟩, ?_⟩, hpx⟩
    · rw [hcp]; exact hok
    · rw [hpx]; exact hcf
  · rintro ⟨p, ⟨hp, ⟨hpc, hok⟩, hpcf⟩, hpx⟩
    refine ⟨?_, p, hp, hpx, hpc.symm, ?_⟩
    · rw [← hpx]; exact hpcf
    · rw [← hpc] at hok; exact hok

lemma mem_agg_disabled_iff (env : Env) (combos : List (String × CloudCapability))
    (c : CloudCapability) (x : String) :
    x ∈ dict_cap_set (aggregate combos (dispatch env combos)).disabled_clouds c ↔
      x ∈ spec_newly_disabled env combos c := by
  rw [mem_dict_cap_set]
  unfold aggregate dispatch run_in_parallel
  rw [zip_self_map, mem_fold_disabled]
  simp only [List.not_mem_nil, false_and, exists_false, exists_const, false_or,
    List.mem_map, exists_exists_and_eq_and, exists_some_false_iff,
    spec_newly_disabled, List.mem_toFinset, List.mem_filter, Bool.and_eq_true,
    decide_eq_true_eq, Bool.not_eq_true', probe_failed]
  constructor
  · rintro ⟨hcf, p, hp, hpx, hcp, hok⟩
    refine ⟨p, ⟨hp, ⟨hcp.symm, ?_⟩, ?_⟩, hpx⟩
    · rw [hcp]; exact hok
    · rw [hpx]; exact hcf
  · rintro ⟨p, ⟨hp, ⟨hpc, hok⟩, hpcf⟩, hpx⟩
    refine ⟨?_, p, hp, hpx, hpc.symm, ?_⟩
    · rw [← hpx]; exact hpcf
    · rw [← hpc] at hok; exact hok

/-! Properties of the reconciliation loop. -/

lemma reconcile_foldl_cache_frame (al : List String) (agg : Agg)
    (caps : List CloudCapability) (st : RecState) (c : CloudCapability)
    (hc : c ∉ caps) :
    (caps.foldl (reconcile_step al agg) st).cache c = st.cache c := by
  induction caps generalizing st with
  | nil => rfl
  | cons a rest ih =>
    rw [List.foldl_cons]
    have hca : c ≠ a := fun h => hc (h ▸ List.mem_cons_self a rest)
    rw [ih _ (fun h => hc (List.mem_cons_of_mem a h))]
    simp [reconcile_step, Function.update_noteq hca]

lemma reconcile_foldl_cache_mem (al : List String) (agg : Agg)
    (caps : List CloudCapability) (st : RecState) (c : CloudCapability)
    (hnd : caps.Nodup) (hc : c ∈ caps) :
    (caps.foldl (reconcile_step al agg) st).cache c =
      enabled_clouds_for_capability al agg (st.cache c) c := by
  induction caps generalizing st with
  | nil => cases hc
  | cons a rest ih =>
    rw [List.foldl_cons]
    rcases List.mem_cons.mp hc with h | h
    · subst h
      have hnr : c ∉ rest := (List.nodup_cons.mp hnd).1
      rw [reconcile_foldl_cache_frame al agg rest _ c hnr]
      simp [reconcile_step, Function.update_same]
    · have hnd' := (List.nodup_cons.mp hnd).2
      have hca : c ≠ a := fun he => (List.nodup_cons.mp hnd).1 (he ▸ h)
      rw [ih _ hnd' h]
      simp [reconcile_step, Function.update_noteq hca]

lemma reconcile_foldl_cache_subset (al : List String) (agg : Agg)
    (caps : List CloudCapability) (st : RecState) (c : CloudCapability)
    (hc : c ∈ caps) :
    (caps.foldl (reconcile_step al agg) st).cache c ⊆
      config_allowed_clouds_set al := by
  induction caps generalizing st with
  | nil => cases hc
  | cons a rest ih =>
    rw [List.foldl_cons]
    by_cases h : c ∈ rest
    · exact ih _ h
    · have hca : c = a := by
        rcases List.mem_cons.mp hc with h' | h'
        · exact h'
        · exact absurd h' h
      subst hca
      rw [reconcile_foldl_cache_frame al agg rest _ c h]
      simp only [reconcile_step, Function.update_same]
      exact Finset.inter_subset_left

lemma reconcile_foldl_writes (al : List String) (agg : Agg)
    (caps : List CloudCapability) (st : RecState) :
    ((caps.foldl (reconcile_step al agg) st).writes).map Prod.fst =
      st.writes.map Prod.fst ++ caps := by
  induction caps generalizing st with
  | nil => simp
  | cons a rest ih =>
    rw [List.foldl_cons, ih]
    simp [reconcile_step]

lemma reconcile_foldl_all_empty (al : List String) (agg : Agg)
    (caps : List CloudCapability) (st : RecState) (hnd : caps.Nodup) :
    (caps.foldl (reconcile_step al agg) st).all_enabled_clouds = ∅ ↔
      st.all_enabled_clouds = ∅ ∧
        ∀ c ∈ caps, (caps.foldl (reconcile_step al agg) st).cache c = ∅ := by
  induction caps generalizing st with
  | nil => simp
  | cons a rest ih =>
    obtain ⟨hna, hndr⟩ := List.nodup_cons.mp hnd
    have hfa : (rest.foldl (reconcile_step al agg) (reconcile_step al agg st a)).cache a
        = enabled_clouds_for_capability al agg (st.cache a) a := by
      rw [reconcile_foldl_cache_frame al agg rest _ a hna]
      simp [reconcile_step, Function.update_same]
    rw [List.foldl_cons, ih _ hndr, List.forall_mem_cons, hfa,
      show (reconcile_step al agg st a).all_enabled_clouds =
        st.all_enabled_clouds ∪
          enabled_clouds_for_capability al agg (st.cache a) a from rfl,
      Finset.union_eq_empty]
    tauto

/-! Unfolding lemmas for a full run. -/

lemma check_capabilities_eq (env : Env) (cache : CloudCapability → Finset String)
    (clouds : Option (List String)) (capabilities0 : Option (List CloudCapability))
    (ctc0 config0 : List String)
    (h1 : resolveAll env (clouds.getD (get_all_clouds env)) = Except.ok ctc0)
    (h2 : resolveAll env (env.allowed_clouds_config.getD (get_all_clouds env)) =
      Except.ok config0) :
    check_capabilities env cache clouds capabilities0 =
      run_after_resolution env cache ctc0 config0
        (capabilities0.getD ALL_CAPABILITIES) := by
  simp only [check_capabilities, h1, h2]

lemma run_after_resolution_cache (env : Env)
    (cache : CloudCapability → Finset String) (ctc0 config0 : List String)
    (capabilities : List CloudCapability) :
    (run_after_resolution env cache ctc0 config0 capabilities).cache =
      (reconcile_loop (resolved_allow_list config0)
        (aggregate (eligible_combinations ctc0 config0 capabilities)
          (dispatch env (eligible_combinations ctc0 config0 capabilities)))
        capabilities cache).cache := by
  simp only [run_after_resolution]
  split <;> rfl

lemma run_after_resolution_writes (env : Env)
    (cache : CloudCapability → Finset String) (ctc0 config0 : List String)
    (capabilities : List CloudCapability) :
    (run_after_resolution env cache ctc0 config0 capabilities).writes =
      (reconcile_loop (resolved_allow_list config0)
        (aggregate (eligible_combinations ctc0 config0 capabilities)
          (dispatch env (eligible_combinations ctc0 config0 capabilities)))
        capabilities cache).writes := by
  simp only [run_after_resolution]
  split <;> rfl

lemma run_after_resolution_outcome (env : Env)
    (cache : CloudCapability → Finset String) (ctc0 config0 : List String)
    (capabilities : List CloudCapability) :
    ((run_after_resolution env cache ctc0 config0 capabilities).outcome =
        RunOutcome.systemExit ↔
      (reconcile_loop (resolved_allow_list config0)
        (aggregate (eligible_combinations ctc0 config0 capabilities)
          (dispatch env (eligible_combinations ctc0 config0 capabilities)))
        capabilities cache).all_enabled_clouds = ∅) := by
  simp only [run_after_resolution]
  split
  · rename_i h; simp [h]
  · rename_i h; simp [h]

/-- The central equation: after a successful resolution phase, the cache entry
written for a requested capability is exactly the spec's reconciliation
formula applied to the filtered previous state. -/
lemma run_cache_eq (env : Env) (cache : CloudCapability → Finset String)
    (ctc0 config0 : List String) (capabilities : List CloudCapability)
    (hnd : capabilities.Nodup) (c : CloudCapability) (hc : c ∈ capabilities) :
    (run_after_resolution env cache ctc0 config0 capabilities).cache c =
      spec_new_enabled env (eligible_combinations ctc0 config0 capabilities)
        config0 (cache c) c := by
  rw [run_after_resolution_cache]
  simp only [reconcile_loop]
  rw [reconcile_foldl_cache_mem _ _ _ _ _ hnd hc]
  dsimp only
  unfold enabled_clouds_for_capability spec_new_enabled
  ext x
  simp only [Finset.mem_inter, Finset.mem_sdiff, Finset.mem_union,
    mem_agg_enabled_iff, mem_agg_disabled_iff, spec_previously_enabled,
    Finset.mem_filter, spec_allowed, config_allowed_clouds_set,
    List.mem_toFinset, List.mem_filter, Bool.not_eq_true']
  constructor
  · rintro ⟨⟨hA, hB⟩, hCE, hD⟩
    refine ⟨⟨hA, hB⟩, ?_, hD⟩
    rcases hCE with hC | hE
    · exact Or.inl ⟨hC, hB⟩
    · exact Or.inr hE
  · rintro ⟨⟨hA, hB⟩, hCE, hD⟩
    refine ⟨⟨hA, hB⟩, ?_, hD⟩
    rcases hCE with ⟨hC, -⟩ | hE
    · exact Or.inl hC
    · exact Or.inr hE

/-! Concrete environments used by the witnesses. -/

/-- A two-cloud registry where only AWS has working credentials. -/
def envW : Env :=
  { from_str := fun n => if n = "AWS" then some "AWS" else
      if n = "GCP" then some "GCP" else none,
    registry_values := ["AWS", "GCP"],
    probe := fun cl _ => if cl = "AWS" then ProbeResult.ret true none
      else ProbeResult.ret false (some (Reason.str "no creds")),
    allowed_clouds_config := none }

/-- An empty cache store. -/
def cacheW : CloudCapability → Finset String := fun _ => ∅

/-- A cache store with AWS enabled for every capability. -/
def cacheNE : CloudCapability → Finset String := fun _ => {"AWS"}

/-- A registry where every probe succeeds. -/
def envA : Env :=
  { from_str := fun n => if n = "AWS" then some "AWS" else none,
    registry_values := ["AWS"],
    probe := fun _ _ => ProbeResult.ret true none,
    allowed_clouds_config := none }

/-- Same as `envA` except that the probe of the cloud named GCP raises. -/
def envB : Env :=
  { from_str := fun n => if n = "AWS" then some "AWS" else none,
    registry_values := ["AWS"],
    probe := fun cl _ => if cl = "GCP" then ProbeResult.raised "boom"
      else ProbeResult.ret true none,
    allowed_clouds_config := none }

/-! The claims. -/

/-- C6: reconciliation is idempotent.  With
`f S = allowed ∩ ((S ∪ passed) − failed)` the reconciliation formula of
check.py lines 154-156 for a fixed allow-list and fixed pass results,
`f (f S) = f S` for every cached EnabledState `S`. -/
theorem claim_C6 (config_allowed_cloud_names : List String) (agg : Agg)
    (S : Finset String) (capability : CloudCapability) :
    enabled_clouds_for_capability config_allowed_cloud_names agg
      (enabled_clouds_for_capability config_allowed_cloud_names agg S capability)
      capability =
    enabled_clouds_for_capability config_allowed_cloud_names agg S capability := by
  unfold enabled_clouds_for_capability
  ext x
  simp only [Finset.mem_inter, Finset.mem_union, Finset.mem_sdiff]
  tauto

/-- C4: the probe adapter turns a `NotSupportedError` into no outcome (a
skip); it turns any other exception into an outcome with `ok = false` whose
reason is the (stripped, non-empty) traceback text; and each dispatched pair's
result depends only on that pair's own probe, so one cloud's failure cannot
change any other cloud's outcome. -/
theorem claim_C4 (probe : CloudCapability → ProbeResult)
    (capability : CloudCapability) :
    (probe capability = ProbeResult.notSupportedError →
      check_one_cloud_one_capability probe capability = none)
    ∧ (∀ tb : String, probe capability = ProbeResult.raised tb → py_strip tb ≠ "" →
        check_one_cloud_one_capability probe capability =
          some (capability, false, some (Reason.str (py_strip tb))))
    ∧ (∀ (env1 env2 : Env) (combos : List (String × CloudCapability))
        (bad : String), (∀ cl, cl ≠ bad → env1.probe cl = env2.probe cl) →
        ∀ (i : Nat) (h : i < combos.length), (combos[i]).1 ≠ bad →
          (dispatch env1 combos)[i]? = (dispatch env2 combos)[i]?) := by
  refine ⟨?_, ?_, ?_⟩
  · intro h
    simp [check_one_cloud_one_capability, h]
  · intro tb h htrim
    have htb : tb ≠ "" := fun he => htrim (by rw [he]; rfl)
    simp [check_one_cloud_one_capability, h, normalize_reason, htb]
  · intro env1 env2 combos bad hagree i h hne
    have hp : env1.probe (combos[i]).1 = env2.probe (combos[i]).1 :=
      hagree _ hne
    simp only [dispatch, run_in_parallel, List.getElem?_map,
      List.getElem?_eq_getElem h]
    simp only [Option.map_some', Option.some.injEq]
    rw [hp]

/-- C4 witness: concrete unsupported and raising probes, plus concrete
isolation of one failing cloud from another's dispatched outcome. -/
theorem claim_C4_witness :
    check_one_cloud_one_capability (fun _ => ProbeResult.notSupportedError)
      CloudCapability.compute = none
    ∧ check_one_cloud_one_capability
        (fun _ => ProbeResult.raised "Traceback: boom") CloudCapability.compute =
        some (CloudCapability.compute, false, some (Reason.str "Traceback: boom"))
    ∧ (dispatch envA [("AWS", CloudCapability.compute)])[0]? =
        (dispatch envB [("AWS", CloudCapability.compute)])[0]? := by
  refine ⟨(claim_C4 (fun _ => ProbeResult.notSupportedError)
    CloudCapability.compute).1 rfl, ?_, ?_⟩
  · have h := (claim_C4 (fun _ => ProbeResult.raised "Traceback: boom")
      CloudCapability.compute).2.1 "Traceback: boom" rfl (by decide)
    rw [show py_strip "Traceback: boom" = "Traceback: boom" from by decide] at h
    exact h
  · refine (claim_C4 (fun _ => ProbeResult.notSupportedError)
      CloudCapability.compute).2.2 envA envB
      [("AWS", CloudCapability.compute)] "GCP" ?_ 0 (by decide) (by decide)
    intro cl hcl
    funext c
    simp [envA, envB, hcl]

/-- C5: the dispatcher returns exactly one optional outcome per input pair in
input order (result i is the adapter applied to input i, so results are
recoverable by zipping with inputs), tolerates the empty list, and any pair
whose probe does not signal `NotSupportedError` yields exactly one outcome. -/
theorem claim_C5 (env : Env) (combos : List (String × CloudCapability)) :
    (dispatch env combos).length = combos.length
    ∧ (∀ i : Nat, (dispatch env combos)[i]? =
        (combos[i]?).map
          (fun p => check_one_cloud_one_capability (env.probe p.1) p.2))
    ∧ dispatch env ([] : List (String × CloudCapability)) = []
    ∧ ∀ (i : Nat) (h : i < combos.length),
        env.probe (combos[i]).1 (combos[i]).2 ≠
            ProbeResult.notSupportedError →
          ∃ out : CheckResult, (dispatch env combos)[i]? = some (some out) := by
  refine ⟨by simp [dispatch, run_in_parallel], ?_, rfl, ?_⟩
  · intro i
    simp [dispatch, run_in_parallel, List.getElem?_map]
  · intro i h hns
    have h2 : (dispatch env combos)[i]? =
        some (check_one_cloud_one_capability
          (env.probe (combos[i]).1) (combos[i]).2) := by
      simp only [dispatch, run_in_parallel, List.getElem?_map,
        List.getElem?_eq_getElem h, Option.map_some']
    cases hp : env.probe (combos[i]).1 (combos[i]).2 with
    | notSupportedError => exact absurd hp hns
    | ret ok reason =>
      exact ⟨((combos[i]).2, ok, normalize_reason reason),
        by rw [h2]; simp [check_one_cloud_one_capability, hp]⟩
    | raised tb =>
      exact ⟨((combos[i]).2, false,
          normalize_reason (some (Reason.str tb))),
        by rw [h2]; simp [check_one_cloud_one_capability, hp]⟩

/-- C5 witness: a concrete two-pair dispatch. -/
theorem claim_C5_witness :
    (dispatch envW [("AWS", CloudCapability.compute),
        ("GCP", CloudCapability.storage)]).length = 2
    ∧ ∃ out : CheckResult,
        (dispatch envW [("AWS", CloudCapability.compute),
          ("GCP", CloudCapability.storage)])[0]? = some (some out) := by
  have h := claim_C5 envW
    [("AWS", CloudCapability.compute), ("GCP", CloudCapability.storage)]
  exact ⟨h.1, h.2.2.2 0 (by decide) (by decide)⟩

/-- C7: a structured (dict) reason passes through the probe adapter
unmodified; a string reason is stripped of surrounding whitespace, the empty
string being treated as an absent reason; an absent reason stays absent. -/
theorem claim_C7 (probe : CloudCapability → ProbeResult)
    (capability : CloudCapability) (ok : Bool) :
    (∀ d, probe capability = ProbeResult.ret ok (some (Reason.dict d)) →
      check_one_cloud_one_capability probe capability =
        some (capability, ok, some (Reason.dict d)))
    ∧ (∀ s, probe capability = ProbeResult.ret ok (some (Reason.str s)) →
        check_one_cloud_one_capability probe capability =
          some (capability, ok,
            if s = "" then none else some (Reason.str (py_strip s))))
    ∧ (probe capability = ProbeResult.ret ok none →
        check_one_cloud_one_capability probe capability =
          some (capability, ok, none)) := by
  refine ⟨?_, ?_, ?_⟩
  · intro d h
    simp [check_one_cloud_one_capability, h, normalize_reason]
  · intro s h
    simp [check_one_cloud_one_capability, h, normalize_reason]
  · intro h
    simp [check_one_cloud_one_capability, h, normalize_reason]

/-- C7 witness: a concrete dict reason, a padded string reason, and an empty
string reason. -/
theorem claim_C7_witness :
    check_one_cloud_one_capability
      (fun _ => ProbeResult.ret true (some (Reason.dict [("ctx", "enabled")])))
      CloudCapability.compute =
      some (CloudCapability.compute, true, some (Reason.dict [("ctx", "enabled")]))
    ∧ check_one_cloud_one_capability
        (fun _ => ProbeResult.ret false (some (Reason.str "  bad key  ")))
        CloudCapability.compute =
        some (CloudCapability.compute, false, some (Reason.str "bad key"))
    ∧ check_one_cloud_one_capability
        (fun _ => ProbeResult.ret false (some (Reason.str "")))
        CloudCapability.compute =
        some (CloudCapability.compute, false, none) := by
  refine ⟨(claim_C7 _ CloudCapability.compute true).1 [("ctx", "enabled")] rfl,
    ?_, ?_⟩
  · have h := (claim_C7
      (fun _ => ProbeResult.ret false (some (Reason.str "  bad key  ")))
      CloudCapability.compute false).2.1 "  bad key  " rfl
    rw [if_neg (by decide), show py_strip "  bad key  " = "bad key" from by decide] at h
    exact h
  · have h := (claim_C7 (fun _ => ProbeResult.ret false (some (Reason.str "")))
      CloudCapability.compute false).2.1 "" rfl
    rw [if_pos rfl] at h
    exact h

/-! Helper lemmas about resolution and the refresh wrapper. -/

lemma resolveAll_error_mem (env : Env) (l : List String) (n : String)
    (h : resolveAll env l = Except.error n) :
    n ∈ l ∧ get_cloud_tuple env n = none := by
  induction l with
  | nil => simp [resolveAll] at h
  | cons c rest ih =>
    simp only [resolveAll] at h
    cases hg : get_cloud_tuple env c with
    | none =>
      rw [hg] at h
      injection h with h1
      subst h1
      exact ⟨List.mem_cons_self c rest, hg⟩
    | some r =>
      rw [hg] at h
      cases hr : resolveAll env rest with
      | error e =>
        rw [hr] at h
        injection h with h1
        subst h1
        exact ⟨List.mem_cons_of_mem c (ih hr).1, (ih hr).2⟩
      | ok rs =>
        rw [hr] at h
        cases h

lemma resolveAll_probe_invariant (env : Env)
    (p : String → CloudCapability → ProbeResult) (l : List String) :
    resolveAll { env with probe := p } l = resolveAll env l := by
  induction l with
  | nil => rfl
  | cons c rest ih =>
    simp only [resolveAll]
    rw [show get_cloud_tuple { env with probe := p } c =
      get_cloud_tuple env c from rfl]
    cases get_cloud_tuple env c with
    | none => rfl
    | some r => rw [ih]

lemma run_after_resolution_not_cloudNotFound (env : Env)
    (cache : CloudCapability → Finset String) (ctc0 config0 : List String)
    (caps : List CloudCapability) (n : String) :
    (run_after_resolution env cache ctc0 config0 caps).outcome ≠
      RunOutcome.cloudNotFound n := by
  simp only [run_after_resolution]
  split <;> simp

/-- A registry of two clouds whose probes all fail this pass. -/
def env_cex : Env :=
  { from_str := fun n => if n = "AWS" then some "AWS" else
      if n = "GCP" then some "GCP" else none,
    registry_values := ["AWS", "GCP"],
    probe := fun _ _ => ProbeResult.ret false none,
    allowed_clouds_config := none }

/-- A cache store left over from a previous run in which GCP was enabled. -/
def cache_cex : CloudCapability → Finset String := fun _ => {"GCP"}

/-! The reconciliation claims. -/

/-- C1: for every requested capability, the persisted EnabledState equals
`allowed ∩ ((previously_enabled ∪ newly_enabled) − newly_disabled)` with the
Cloudflare pseudo-providers excluded from each operand (the code does not
filter the cached previous state, but intersecting with the filtered
allow-list yields the same set), so pseudo-providers never appear in the
persisted result. -/
theorem claim_C1 (env : Env) (cache : CloudCapability → Finset String)
    (clouds : Option (List String))
    (capabilities0 : Option (List CloudCapability)) (ctc0 config0 : List String)
    (h1 : resolveAll env (clouds.getD (get_all_clouds env)) = Except.ok ctc0)
    (h2 : resolveAll env (env.allowed_clouds_config.getD (get_all_clouds env)) =
      Except.ok config0)
    (hnd : (capabilities0.getD ALL_CAPABILITIES).Nodup)
    (capability : CloudCapability)
    (hc : capability ∈ capabilities0.getD ALL_CAPABILITIES) :
    (check_capabilities env cache clouds capabilities0).cache capability =
      spec_new_enabled env
        (eligible_combinations ctc0 config0 (capabilities0.getD ALL_CAPABILITIES))
        config0 (cache capability) capability := by
  rw [check_capabilities_eq env cache clouds capabilities0 ctc0 config0 h1 h2]
  exact run_cache_eq env cache ctc0 config0 _ hnd capability hc

/-- C1 witness: a concrete run over a two-cloud registry. -/
theorem claim_C1_witness :
    (check_capabilities envW cacheW none
        (some [CloudCapability.compute])).cache CloudCapability.compute =
      spec_new_enabled envW
        (eligible_combinations ["AWS", "GCP", "Cloudflare"]
          ["AWS", "GCP", "Cloudflare"] [CloudCapability.compute])
        ["AWS", "GCP", "Cloudflare"] (cacheW CloudCapability.compute)
        CloudCapability.compute :=
  claim_C1 envW cacheW none (some [CloudCapability.compute])
    ["AWS", "GCP", "Cloudflare"] ["AWS", "GCP", "Cloudflare"]
    rfl rfl (by decide) CloudCapability.compute (by decide)

/-- C2: the newly persisted EnabledState for every requested capability is a
subset of the resolved allow-list. -/
theorem claim_C2 (env : Env) (cache : CloudCapability → Finset String)
    (clouds : Option (List String))
    (capabilities0 : Option (List CloudCapability)) (ctc0 config0 : List String)
    (h1 : resolveAll env (clouds.getD (get_all_clouds env)) = Except.ok ctc0)
    (h2 : resolveAll env (env.allowed_clouds_config.getD (get_all_clouds env)) =
      Except.ok config0)
    (capability : CloudCapability)
    (hc : capability ∈ capabilities0.getD ALL_CAPABILITIES) :
    (check_capabilities env cache clouds capabilities0).cache capability ⊆
      (resolved_allow_list config0).toFinset := by
  rw [check_capabilities_eq env cache clouds capabilities0 ctc0 config0 h1 h2,
    run_after_resolution_cache]
  simp only [reconcile_loop]
  intro x hx
  have hsub := reconcile_foldl_cache_subset (resolved_allow_list config0) _ _
    ⟨cache, ∅, []⟩ capability hc hx
  simp only [config_allowed_clouds_set, List.mem_toFinset,
    List.mem_filter] at hsub
  simp only [List.mem_toFinset]
  exact hsub.1

/-- C2 witness: the concrete run of the C1 witness, against its resolved
allow-list. -/
theorem claim_C2_witness :
    (check_capabilities envW cacheW none
        (some [CloudCapability.compute])).cache CloudCapability.compute ⊆
      (resolved_allow_list ["AWS", "GCP", "Cloudflare"]).toFinset :=
  claim_C2 envW cacheW none (some [CloudCapability.compute])
    ["AWS", "GCP", "Cloudflare"] ["AWS", "GCP", "Cloudflare"]
    rfl rfl CloudCapability.compute (by decide)

/-- C9: an unresolvable requested provider name (necessarily not a
Cloudflare-prefixed pseudo-provider, which always resolves) makes the run fail
at matrix-construction time with that name, for every probe behaviour (so no
probe result can influence the outcome), leaving the cache untouched and
performing no cache write. -/
theorem claim_C9 (env : Env) (cache : CloudCapability → Finset String)
    (clouds : Option (List String))
    (capabilities0 : Option (List CloudCapability)) (name : String)
    (h : resolveAll env (clouds.getD (get_all_clouds env)) =
      Except.error name) :
    py_startswith (py_lower name) "cloudflare" = false
    ∧ ∀ p2 : String → CloudCapability → ProbeResult,
        check_capabilities { env with probe := p2 } cache clouds capabilities0 =
          ⟨cache, [], RunOutcome.cloudNotFound name⟩ := by
  obtain ⟨hmem, hg⟩ := resolveAll_error_mem env _ name h
  constructor
  · rcases Bool.eq_false_or_eq_true (py_startswith (py_lower name) "cloudflare")
      with hb | hb
    · exfalso
      unfold get_cloud_tuple at hg
      rw [if_pos hb] at hg
      cases hg
    · exact hb
  · intro p2
    simp only [check_capabilities]
    rw [show clouds.getD (get_all_clouds { env with probe := p2 }) =
        clouds.getD (get_all_clouds env) from rfl,
      resolveAll_probe_invariant, h]

/-- C9 witness: a request for the unknown provider Oracle with an empty
registry. -/
theorem claim_C9_witness :
    py_startswith (py_lower "Oracle") "cloudflare" = false
    ∧ check_capabilities
        { envA with probe := fun _ _ => ProbeResult.ret true none }
        cacheW (some ["Oracle"]) none =
        ⟨cacheW, [], RunOutcome.cloudNotFound "Oracle"⟩ := by
  have h := claim_C9 envA cacheW (some ["Oracle"]) none "Oracle" rfl
  exact ⟨h.1, h.2 (fun _ _ => ProbeResult.ret true none)⟩

/-- C3 (amended): the run terminates with `SystemExit` iff every EnabledState
written during the run is empty (the union of the written sets is empty); in
particular a run in which zero providers pass any capability AND every
previously cached EnabledState is empty reports this terminal condition.  (As
originally stated the second part is false: a previously cached, allow-listed
provider that is not probed this pass survives reconciliation, see the
counterexample.) -/
theorem claim_C3_amended (env : Env) (cache : CloudCapability → Finset String)
    (clouds : Option (List String))
    (capabilities0 : Option (List CloudCapability)) (ctc0 config0 : List String)
    (h1 : resolveAll env (clouds.getD (get_all_clouds env)) = Except.ok ctc0)
    (h2 : resolveAll env (env.allowed_clouds_config.getD (get_all_clouds env)) =
      Except.ok config0)
    (hnd : (capabilities0.getD ALL_CAPABILITIES).Nodup) :
    ((check_capabilities env cache clouds capabilities0).outcome =
        RunOutcome.systemExit ↔
      ∀ capability ∈ capabilities0.getD ALL_CAPABILITIES,
        (check_capabilities env cache clouds capabilities0).cache capability = ∅)
    ∧ ((∀ capability, cache capability = ∅) →
        (∀ p ∈ eligible_combinations ctc0 config0
            (capabilities0.getD ALL_CAPABILITIES),
          probe_passed env p.1 p.2 = false) →
        (check_capabilities env cache clouds capabilities0).outcome =
          RunOutcome.systemExit) := by
  rw [check_capabilities_eq env cache clouds capabilities0 ctc0 config0 h1 h2]
  have hiff : (run_after_resolution env cache ctc0 config0
      (capabilities0.getD ALL_CAPABILITIES)).outcome = RunOutcome.systemExit ↔
      ∀ capability ∈ capabilities0.getD ALL_CAPABILITIES,
        (run_after_resolution env cache ctc0 config0
          (capabilities0.getD ALL_CAPABILITIES)).cache capability = ∅ := by
    rw [run_after_resolution_outcome, run_after_resolution_cache]
    simp only [reconcile_loop]
    rw [reconcile_foldl_all_empty _ _ _ _ hnd]
    simp
  refine ⟨hiff, ?_⟩
  intro hemp hpass
  rw [hiff]
  intro c hc
  rw [run_cache_eq env cache ctc0 config0 _ hnd c hc, hemp c]
  unfold spec_new_enabled
  have hne : spec_newly_enabled env
      (eligible_combinations ctc0 config0 (capabilities0.getD ALL_CAPABILITIES))
      c = ∅ := by
    unfold spec_newly_enabled
    have hfil : (eligible_combinations ctc0 config0
        (capabilities0.getD ALL_CAPABILITIES)).filter
        (fun p => decide (p.2 = c) && probe_passed env p.1 c &&
          !(py_startswith p.1 "Cloudflare")) = [] := by
      rw [List.filter_eq_nil_iff]
      intro p hp
      by_cases hpc : p.2 = c
      · rw [← hpc]
        simp [hpass p hp]
      · simp [hpc]
    rw [hfil]
    rfl
  rw [hne, show spec_previously_enabled ∅ = ∅ from rfl]
  simp

/-- C3 witness: one failing cloud, empty caches, a single capability: the run
terminates with `SystemExit`, obtained from the amended claim with both of its
side conditions discharged. -/
theorem claim_C3_witness :
    (check_capabilities env_cex cacheW (some ["AWS"])
      (some [CloudCapability.compute])).outcome = RunOutcome.systemExit := by
  have h := claim_C3_amended env_cex cacheW (some ["AWS"])
    (some [CloudCapability.compute]) ["AWS"] ["AWS", "GCP", "Cloudflare"]
    rfl rfl (by decide)
  exact h.2 (fun _ => rfl) (fun p hp => rfl)

/-- C3 counterexample: zero providers pass (every probe of `env_cex` returns
`ok = false`), yet the run does not terminate with `SystemExit`, because the
previously cached, allow-listed cloud GCP is not probed this pass and
survives reconciliation. -/
theorem claim_C3_counterexample :
    (∀ cl capability, probe_passed env_cex cl capability = false)
    ∧ (check_capabilities env_cex cache_cex (some ["AWS"])
        (some [CloudCapability.compute])).outcome ≠ RunOutcome.systemExit := by
  refine ⟨fun cl capability => rfl, ?_⟩
  decide

/-- C8: after a successful resolution phase the run performs exactly one cache
write per requested capability, in request order, unconditionally (even when
the written set is empty or unchanged), and the cache entry of every
capability that was not requested is left unchanged. -/
theorem claim_C8 (env : Env) (cache : CloudCapability → Finset String)
    (clouds : Option (List String))
    (capabilities0 : Option (List CloudCapability)) (ctc0 config0 : List String)
    (h1 : resolveAll env (clouds.getD (get_all_clouds env)) = Except.ok ctc0)
    (h2 : resolveAll env (env.allowed_clouds_config.getD (get_all_clouds env)) =
      Except.ok config0) :
    ((check_capabilities env cache clouds capabilities0).writes.map Prod.fst =
      capabilities0.getD ALL_CAPABILITIES)
    ∧ ∀ capability, capability ∉ capabilities0.getD ALL_CAPABILITIES →
        (check_capabilities env cache clouds capabilities0).cache capability =
          cache capability := by
  rw [check_capabilities_eq env cache clouds capabilities0 ctc0 config0 h1 h2,
    run_after_resolution_writes, run_after_resolution_cache]
  constructor
  · simp only [reconcile_loop]
    rw [reconcile_foldl_writes]
    simp
  · intro capability hcap
    simp only [reconcile_loop]
    rw [reconcile_foldl_cache_frame _ _ _ _ _ hcap]

/-- C8 witness: one requested capability; the run writes exactly once, for
that capability, and leaves the storage cache entry unchanged. -/
theorem claim_C8_witness :
    ((check_capabilities envW cacheW none
        (some [CloudCapability.compute])).writes.map Prod.fst =
      [CloudCapability.compute])
    ∧ (check_capabilities envW cacheW none
        (some [CloudCapability.compute])).cache CloudCapability.storage =
        cacheW CloudCapability.storage := by
  have h := claim_C8 envW cacheW none (some [CloudCapability.compute])
    ["AWS", "GCP", "Cloudflare"] ["AWS", "GCP", "Cloudflare"] rfl rfl
  exact ⟨h.1, h.2 CloudCapability.storage (by decide)⟩

/-- Behaviour of the refresh wrapper when the cached set is empty and the
inner check's resolution phase cannot fail: the full check runs (its
`SystemExit`, if any, absorbed), the store becomes the check's store, and the
outcome is decided by the re-read entry and the flag. -/
lemma get_cached_refresh (env : Env) (cache : CloudCapability → Finset String)
    (capability : CloudCapability) (flag : Bool)
    (hemp : cache capability = ∅)
    (hnotfound : ∀ n, (check_capability env cache CloudCapability.compute
      none).outcome ≠ RunOutcome.cloudNotFound n) :
    get_cached_enabled_clouds_or_refresh env cache capability flag =
      ((check_capability env cache CloudCapability.compute none).cache,
        if flag && decide ((check_capability env cache CloudCapability.compute
            none).cache capability = ∅)
        then RefreshOutcome.noCloudAccessError
        else RefreshOutcome.ok ((check_capability env cache
          CloudCapability.compute none).cache capability)) := by
  unfold get_cached_enabled_clouds_or_refresh
  rw [if_pos hemp]
  cases houtcome : (check_capability env cache CloudCapability.compute
      none).outcome with
  | cloudNotFound n => exact absurd houtcome (hnotfound n)
  | systemExit =>
    simp only [houtcome]
    split <;> rfl
  | ok d =>
    simp only [houtcome]
    split <;> rfl

/-- C10: `get_cached_enabled_clouds_or_refresh` returns the cached set
unchanged without running any check when it is non-empty; when it is empty it
runs a full check of only the COMPUTE capability (absorbing its
`SystemExit`), re-reads the requested capability's entry from the refreshed
store, and yields `NoCloudAccessError` exactly when the flag is set and that
entry is still empty. -/
theorem claim_C10 (env : Env) (cache : CloudCapability → Finset String)
    (capability : CloudCapability) (flag : Bool) (ctc0 config0 : List String)
    (h1 : resolveAll env (get_all_clouds env) = Except.ok ctc0)
    (h2 : resolveAll env (env.allowed_clouds_config.getD (get_all_clouds env)) =
      Except.ok config0) :
    (cache capability ≠ ∅ →
      get_cached_enabled_clouds_or_refresh env cache capability flag =
        (cache, RefreshOutcome.ok (cache capability)))
    ∧ (cache capability = ∅ →
        (get_cached_enabled_clouds_or_refresh env cache capability flag).1 =
          (check_capability env cache CloudCapability.compute none).cache
        ∧ ((check_capability env cache CloudCapability.compute
              none).writes.map Prod.fst = [CloudCapability.compute])
        ∧ ((get_cached_enabled_clouds_or_refresh env cache capability flag).2 =
              RefreshOutcome.noCloudAccessError ↔
            flag = true ∧ (check_capability env cache CloudCapability.compute
              none).cache capability = ∅)
        ∧ (¬(flag = true ∧ (check_capability env cache
              CloudCapability.compute none).cache capability = ∅) →
            (get_cached_enabled_clouds_or_refresh env cache capability flag).2 =
              RefreshOutcome.ok ((check_capability env cache
                CloudCapability.compute none).cache capability))) := by
  have hrun : check_capability env cache CloudCapability.compute none =
      run_after_resolution env cache ctc0 config0 [CloudCapability.compute] :=
    check_capabilities_eq env cache none (some [CloudCapability.compute])
      ctc0 config0 h1 h2
  have hnotfound : ∀ n, (check_capability env cache CloudCapability.compute
      none).outcome ≠ RunOutcome.cloudNotFound n := by
    intro n
    rw [hrun]
    exact run_after_resolution_not_cloudNotFound env cache ctc0 config0 _ n
  constructor
  · intro hne
    simp [get_cached_enabled_clouds_or_refresh, hne]
  · intro hemp
    rw [get_cached_refresh env cache capability flag hemp hnotfound]
    refine ⟨rfl, ?_, ?_, ?_⟩
    · rw [hrun, run_after_resolution_writes]
      simp only [reconcile_loop]
      rw [reconcile_foldl_writes]
      simp
    · by_cases hcond : flag = true ∧ (check_capability env cache
          CloudCapability.compute none).cache capability = ∅
      · rw [if_pos (by simp [hcond.1, hcond.2])]
        simp [hcond]
      · rw [if_neg ?_]
        · simp only []
          constructor
          · intro hok
            cases hok
          · intro hc
            exact absurd hc hcond
        · simp only [Bool.and_eq_true, decide_eq_true_eq]
          exact hcond
    · intro hcond
      rw [if_neg ?_]
      · simp only [Bool.and_eq_true, decide_eq_true_eq]
        exact hcond

/-- C10 witness: a non-empty cache is returned untouched; with an empty cache
and a requested STORAGE capability the refresh checks COMPUTE only, the
storage entry stays empty, and `NoCloudAccessError` results. -/
theorem claim_C10_witness :
    get_cached_enabled_clouds_or_refresh envW cacheNE CloudCapability.storage
        true = (cacheNE, RefreshOutcome.ok (cacheNE CloudCapability.storage))
    ∧ ((check_capability envW cacheW CloudCapability.compute
        none).writes.map Prod.fst = [CloudCapability.compute])
    ∧ (get_cached_enabled_clouds_or_refresh envW cacheW CloudCapability.storage
        true).2 = RefreshOutcome.noCloudAccessError := by
  have h1 := claim_C10 envW cacheNE CloudCapability.storage true
    ["AWS", "GCP", "Cloudflare"] ["AWS", "GCP", "Cloudflare"] rfl rfl
  have h2 := claim_C10 envW cacheW CloudCapability.storage true
    ["AWS", "GCP", "Cloudflare"] ["AWS", "GCP", "Cloudflare"] rfl rfl
  refine ⟨h1.1 (by decide), (h2.2 rfl).2.1, ?_⟩
  exact ((h2.2 rfl).2.2.1).mpr ⟨rfl, by decide⟩
